import Mathlib

/-
  Shallow embedding of the SoundSphere per-tab audio controller.

  Numeric values are modelled as rationals (ℚ): the JavaScript source only
  performs field arithmetic (+, -, *, /, min, max) on its inputs, so every
  computation appearing in the verified claims is exact over ℚ.

  Possibly non-numeric JavaScript values (band gains coming from a UI
  payload may be `undefined` or another non-number) are modelled by `JVal`:
  `JVal.num q` is a finite JS number with value q, `JVal.other` is a value
  that is not of number type (so `typeof v === "number"` is false and
  `Number(v)` is not finite, e.g. `undefined`).
-/

set_option maxHeartbeats 1000000

/-! ### Gain curve — `mapVolumeToGain` (src/FireFox/1.1/SoundSphere/background.js) -/

/-- The input clamp `Math.max(0, Math.min(800, p))` used by `mapVolumeToGain`. -/
def percentClamp (p : ℚ) : ℚ := max 0 (min 800 p)

/-- `mapVolumeToGain` from background.js:
    clamp to [0,800]; 0 ↦ 0; p ≤ 600 ↦ (p/600)*6; otherwise 6 + ((p-600)/200)*2. -/
def mapVolumeToGain (percent : ℚ) : ℚ :=
  if percentClamp percent = 0 then 0
  else if percentClamp percent ≤ 600 then percentClamp percent / 600 * 6
  else 6 + (percentClamp percent - 600) / 200 * 2

theorem percentClamp_nonneg (p : ℚ) : 0 ≤ percentClamp p := le_max_left 0 _

theorem percentClamp_le (p : ℚ) : percentClamp p ≤ 800 := by
  unfold percentClamp
  exact max_le (by norm_num) (min_le_left _ _)

theorem percentClamp_eq_self {p : ℚ} (h0 : 0 ≤ p) (h8 : p ≤ 800) : percentClamp p = p := by
  unfold percentClamp
  rw [min_eq_right h8, max_eq_right h0]

theorem percentClamp_idem (p : ℚ) : percentClamp (percentClamp p) = percentClamp p :=
  percentClamp_eq_self (percentClamp_nonneg p) (percentClamp_le p)

/-- On the clamped domain the whole two-segment curve collapses to p / 100. -/
theorem mapVolumeToGain_eq_div (p : ℚ) (h0 : 0 ≤ p) (h8 : p ≤ 800) :
    mapVolumeToGain p = p / 100 := by
  unfold mapVolumeToGain
  rw [percentClamp_eq_self h0 h8]
  split_ifs with h1 h2
  · rw [h1]; norm_num
  · ring
  · ring

theorem mapVolumeToGain_clamp (p : ℚ) :
    mapVolumeToGain p = mapVolumeToGain (percentClamp p) := by
  unfold mapVolumeToGain
  rw [percentClamp_idem]

/-- C1: the gain curve satisfies its full contract: inputs are clamped to
    [0, 800]; 0 maps to 0; (0,600] maps by (p/600)*6; (600,800] maps by
    6 + ((p-600)/200)*2; gainFor 100 = 1, gainFor 600 = 6, gainFor 800 = 8;
    out-of-range inputs clamp (gainFor (-5) = gainFor 0, gainFor 999 =
    gainFor 800); and the curve is monotone non-decreasing on [0,800]. -/
theorem C1_gain_curve_contract :
    (∀ p : ℚ, mapVolumeToGain p = mapVolumeToGain (percentClamp p))
    ∧ mapVolumeToGain 0 = 0
    ∧ (∀ p : ℚ, 0 < p → p ≤ 600 → mapVolumeToGain p = p / 600 * 6)
    ∧ (∀ p : ℚ, 600 < p → p ≤ 800 → mapVolumeToGain p = 6 + (p - 600) / 200 * 2)
    ∧ mapVolumeToGain 100 = 1
    ∧ mapVolumeToGain 600 = 6
    ∧ mapVolumeToGain 800 = 8
    ∧ mapVolumeToGain (-5) = mapVolumeToGain 0
    ∧ mapVolumeToGain 999 = mapVolumeToGain 800
    ∧ (∀ p q : ℚ, 0 ≤ p → p ≤ q → q ≤ 800 →
        mapVolumeToGain p ≤ mapVolumeToGain q) := by
  refine ⟨mapVolumeToGain_clamp, ?_, ?_, ?_, ?_, ?_, ?_, ?_, ?_, ?_⟩
  · rw [mapVolumeToGain_eq_div 0 le_rfl (by norm_num)]; norm_num
  · intro p hp hp6
    rw [mapVolumeToGain_eq_div p (le_of_lt hp) (by linarith)]
    ring
  · intro p hp hp8
    rw [mapVolumeToGain_eq_div p (by linarith) hp8]
    ring
  · rw [mapVolumeToGain_eq_div 100 (by norm_num) (by norm_num)]; norm_num
  · rw [mapVolumeToGain_eq_div 600 (by norm_num) (by norm_num)]; norm_num
  · rw [mapVolumeToGain_eq_div 800 (by norm_num) (by norm_num)]; norm_num
  · rw [mapVolumeToGain_clamp (-5), mapVolumeToGain_clamp 0]
    norm_num [percentClamp]
  · rw [mapVolumeToGain_clamp 999, mapVolumeToGain_clamp 800]
    norm_num [percentClamp]
  · intro p q h0 hpq h8
    rw [mapVolumeToGain_eq_div p h0 (le_trans hpq h8),
      mapVolumeToGain_eq_div q (le_trans h0 hpq) h8]
    linarith

/-- Witness for C1 at concrete inputs: the segment formulas and
    monotonicity instantiated at 100, 700 and the pair (300, 500). -/
theorem C1_gain_curve_contract_witness :
    mapVolumeToGain 100 = 100 / 600 * 6
    ∧ mapVolumeToGain 700 = 6 + (700 - 600) / 200 * 2
    ∧ mapVolumeToGain 300 ≤ mapVolumeToGain 500 :=
  ⟨C1_gain_curve_contract.2.2.1 100 (by norm_num) (by norm_num),
   C1_gain_curve_contract.2.2.2.1 700 (by norm_num) (by norm_num),
   C1_gain_curve_contract.2.2.2.2.2.2.2.2.2 300 500 (by norm_num) (by norm_num) (by norm_num)⟩

/-- C2 as stated is false: the slope of the second segment equals the slope
    of the first segment. Concretely, the difference quotient of
    `mapVolumeToGain` over [600,800] equals the one over [0,600] (both are
    1/100), so the second segment is not strictly steeper. -/
theorem C2_counterexample :
    (mapVolumeToGain 800 - mapVolumeToGain 600) / (800 - 600) = 1 / 100
    ∧ (mapVolumeToGain 600 - mapVolumeToGain 0) / (600 - 0) = 1 / 100
    ∧ ¬ ((mapVolumeToGain 800 - mapVolumeToGain 600) / (800 - 600) >
          (mapVolumeToGain 600 - mapVolumeToGain 0) / (600 - 0)) := by
  rw [mapVolumeToGain_eq_div 800 (by norm_num) (by norm_num),
    mapVolumeToGain_eq_div 600 (by norm_num) (by norm_num),
    mapVolumeToGain_eq_div 0 (by norm_num) (by norm_num)]
  norm_num

/-- C2 amended: the two linear pieces of the gain curve share the same slope
    1/100 (the two pieces together are the single linear map p/100 on
    [0,800]); the curve is continuous at the boundary, where both closed-form
    segment expressions and the function itself give 6 at percent = 600. -/
theorem C2_amended_equal_slopes :
    (∀ p q : ℚ, 0 < p → p < q → q ≤ 600 →
        (mapVolumeToGain q - mapVolumeToGain p) / (q - p) = 1 / 100)
    ∧ (∀ p q : ℚ, 600 ≤ p → p < q → q ≤ 800 →
        (mapVolumeToGain q - mapVolumeToGain p) / (q - p) = 1 / 100)
    ∧ mapVolumeToGain 600 = 6
    ∧ (600 : ℚ) / 600 * 6 = 6
    ∧ 6 + ((600 : ℚ) - 600) / 200 * 2 = 6 := by
  refine ⟨?_, ?_, ?_, by norm_num, by norm_num⟩
  · intro p q hp hpq hq
    rw [mapVolumeToGain_eq_div p (le_of_lt hp) (by linarith),
      mapVolumeToGain_eq_div q (by linarith) (by linarith)]
    have hne : q - p ≠ 0 := by intro h; apply absurd hpq; intro hc; linarith [sub_eq_zero.mp h]
    field_simp
    ring
  · intro p q hp hpq hq
    rw [mapVolumeToGain_eq_div p (by linarith) (by linarith),
      mapVolumeToGain_eq_div q (by linarith) hq]
    have hne : q - p ≠ 0 := by intro h; apply absurd hpq; intro hc; linarith [sub_eq_zero.mp h]
    field_simp
    ring
  · rw [mapVolumeToGain_eq_div 600 (by norm_num) (by norm_num)]; norm_num

/-- Witness for C2 amended: slope instantiated over [100,600] and [600,800]. -/
theorem C2_amended_equal_slopes_witness :
    (mapVolumeToGain 600 - mapVolumeToGain 100) / (600 - 100) = 1 / 100
    ∧ (mapVolumeToGain 800 - mapVolumeToGain 600) / (800 - 600) = 1 / 100 :=
  ⟨C2_amended_equal_slopes.1 100 600 (by norm_num) (by norm_num) (by norm_num),
   C2_amended_equal_slopes.2.1 600 800 (by norm_num) (by norm_num) (by norm_num)⟩

/-! ### JavaScript values and the shared clamp helper
    (`clamp` in src/unnamed/part_000, `clampNumber` in FireFox/1.2 popup.js) -/

/-- A JavaScript value reaching a numeric setter: either a finite number or a
    value that is not of number type (e.g. `undefined`), whose `Number`
    coercion is not finite. -/
inductive JVal where
  | num (q : ℚ)
  | other
deriving DecidableEq, Repr

/-- `clampNumber(v, lo, hi)`: `Number(v)` not finite returns `lo`, otherwise
    `Math.max(lo, Math.min(hi, v))`. -/
def clampNumber (v : JVal) (lo hi : ℚ) : ℚ :=
  match v with
  | .num q => max lo (min hi q)
  | .other => lo

theorem clampNumber_mem {v : JVal} {lo hi : ℚ} (h : lo ≤ hi) :
    lo ≤ clampNumber v lo hi ∧ clampNumber v lo hi ≤ hi := by
  cases v with
  | num q =>
      refine ⟨le_max_left _ _, max_le h (min_le_left _ _)⟩
  | other => exact ⟨le_rfl, h⟩

/-- `arr.slice(0, 10)` followed by `while (arr.length < 10) arr.push(0)`. -/
def padTo10 (l : List JVal) : List JVal :=
  l.take 10 ++ List.replicate (10 - (l.take 10).length) (JVal.num 0)

theorem padTo10_length (l : List JVal) : (padTo10 l).length = 10 := by
  unfold padTo10
  rw [List.length_append, List.length_replicate]
  have h : (l.take 10).length ≤ 10 := by
    rw [List.length_take]; exact min_le_left _ _
  omega

/-! ### Page-context WebAudio tap settings (src/unnamed/part_000)
    State, the SS_SETTINGS message handler, and `applySettings`. -/

/-- Mutable `state` of the page-context tap. -/
structure TapState where
  volumePercent : ℚ
  muted : Bool
  mode : String
  eq : List ℚ
deriving Repr, DecidableEq

def initTapState : TapState :=
  { volumePercent := 100, muted := false, mode := "default", eq := List.replicate 10 0 }

/-- Payload of an SS_SETTINGS message. `none` models an absent / non-number
    field; `muted` models the truthiness of `p.muted` (absent = false). -/
structure SSPayload where
  volumePercent : Option ℚ
  volume : Option ℚ
  muted : Bool
  mode : Option String
  eq : Option (List JVal)

/-- The SS_SETTINGS handler of part_000: volumePercent (falling back to
    `volume`, then to the stored value) clamped to [0,800]; muted coerced with
    `!!`; mode validated against the three-value enum; eq (when an array)
    sliced/padded to 10 entries and clamped per band to [-24,24]. -/
def handleSS (st : TapState) (p : SSPayload) : TapState :=
  let vp := match p.volumePercent with
    | some v => some v
    | none => p.volume
  let newVol := match vp with
    | some v => max 0 (min 800 v)
    | none => max 0 (min 800 st.volumePercent)
  let newMode := match p.mode with
    | some m => if m = "voice" ∨ m = "bass" then m else "default"
    | none => "default"
  let newEq := match p.eq with
    | some l => (padTo10 l).map (fun v => clampNumber v (-24) 24)
    | none => st.eq
  { volumePercent := newVol, muted := p.muted, mode := newMode, eq := newEq }

/-- Effective gain pushed by `applySettings`:
    `state.muted ? 0 : clamp(state.volumePercent, 0, 800) / 100`. -/
def effectiveGain (st : TapState) : ℚ :=
  if st.muted then 0 else max 0 (min 800 st.volumePercent) / 100

/-- Parameters a live chain holds after `applySettings` ran on it. -/
structure ChainParams where
  gainValue : ℚ
  eqDb : List ℚ
  modeName : String
deriving Repr, DecidableEq

/-- `applySettings(chain)` of part_000: sets the chain gain to the effective
    gain, each of the 10 EQ filter gains to `clamp(state.eq[i] ?? 0, -24, 24)`
    and rebuilds the mode segment for `state.mode`. -/
def applySettingsChain (st : TapState) (_c : ChainParams) : ChainParams :=
  { gainValue := effectiveGain st,
    eqDb := (List.range 10).map (fun i => max (-24) (min 24 (st.eq.getD i 0))),
    modeName := st.mode }

/-- The settings loop of the handler: every known chain gets `applySettings`. -/
def pushAll (st : TapState) (chains : List ChainParams) : List ChainParams :=
  chains.map (applySettingsChain st)

/-- A payload that only sets `muted` (no volume, mode or eq fields). -/
def mutedOnlyPayload (m : Bool) : SSPayload :=
  { volumePercent := none, volume := none, muted := m, mode := none, eq := none }

/-- C3: after a muted-only SS_SETTINGS update, every live chain is pushed an
    effective gain of 0 regardless of the stored volumePercent; unmuting with
    another payload that does not resend volumePercent restores the gain
    derived from the stored volumePercent (clamped to [0,800], divided by
    100 — for volumePercent in range, exactly volumePercent/100). -/
theorem C3_mute_forces_zero_gain (st : TapState) (chains : List ChainParams) :
    (∀ c ∈ pushAll (handleSS st (mutedOnlyPayload true)) chains, c.gainValue = 0)
    ∧ effectiveGain (handleSS st (mutedOnlyPayload true)) = 0
    ∧ effectiveGain (handleSS (handleSS st (mutedOnlyPayload true)) (mutedOnlyPayload false))
        = max 0 (min 800 st.volumePercent) / 100
    ∧ (0 ≤ st.volumePercent → st.volumePercent ≤ 800 →
        effectiveGain (handleSS (handleSS st (mutedOnlyPayload true)) (mutedOnlyPayload false))
          = st.volumePercent / 100) := by
  have hmut : effectiveGain (handleSS st (mutedOnlyPayload true)) = 0 := by
    simp [handleSS, mutedOnlyPayload, effectiveGain]
  have hvol : (handleSS st (mutedOnlyPayload true)).volumePercent
      = max 0 (min 800 st.volumePercent) := by
    simp [handleSS, mutedOnlyPayload]
  have hclamp : max 0 (min 800 (max 0 (min 800 st.volumePercent)))
      = max 0 (min 800 st.volumePercent) := percentClamp_idem st.volumePercent
  refine ⟨?_, hmut, ?_, ?_⟩
  · intro c hc
    rcases List.mem_map.mp hc with ⟨c0, _, hceq⟩
    rw [← hceq]
    simp [applySettingsChain, hmut]
  · simp only [effectiveGain, handleSS, mutedOnlyPayload]
    simp only [Bool.false_eq_true, if_false]
    rw [hclamp, hclamp]
  · intro h0 h8
    simp only [effectiveGain, handleSS, mutedOnlyPayload]
    simp only [Bool.false_eq_true, if_false]
    rw [hclamp, hclamp, min_eq_right h8, max_eq_right h0]

/-- Witness for C3 at volumePercent = 400 with one live chain. -/
theorem C3_mute_forces_zero_gain_witness :
    (∀ c ∈ pushAll
        (handleSS { volumePercent := 400, muted := false, mode := "default",
                    eq := List.replicate 10 0 } (mutedOnlyPayload true))
        [{ gainValue := 4, eqDb := List.replicate 10 0, modeName := "default" }],
      c.gainValue = 0)
    ∧ effectiveGain
        (handleSS (handleSS { volumePercent := 400, muted := false, mode := "default",
                              eq := List.replicate 10 0 } (mutedOnlyPayload true))
          (mutedOnlyPayload false)) = 400 / 100 := by
  refine ⟨(C3_mute_forces_zero_gain _ _).1, ?_⟩
  exact (C3_mute_forces_zero_gain
    { volumePercent := 400, muted := false, mode := "default", eq := List.replicate 10 0 }
    []).2.2.2 (by norm_num) (by norm_num)

/-! ### Tab-capture engine — `TabAudioController` (src/unnamed/part_003) -/

/-- The fields of `TabAudioController` the EQ path touches. -/
structure TabEngineState where
  currentGain : ℚ
  currentMode : String
  currentEq : List JVal
deriving Repr, DecidableEq

def initTabEngine : TabEngineState :=
  { currentGain := 1, currentMode := "default", currentEq := List.replicate 10 (JVal.num 0) }

/-- `TabAudioController.setEqGains(gains)`: slice to 10, pad with 0, store the
    raw values. Note: no clamping happens here. `none` models a non-array
    argument, which is replaced by the empty array. -/
def tabSetEqGains (st : TabEngineState) (gains : Option (List JVal)) : TabEngineState :=
  { st with currentEq := padTo10 (gains.getD []) }

/-- `TabAudioController._applyEqFilters`: the gain written to band i is
    `typeof gains[i] === "number" ? gains[i] : 0`, where `gains` is
    `currentEq` when it has exactly 10 entries and ten zeros otherwise.
    No clamping happens here either. -/
def tabAppliedEq (st : TabEngineState) : List ℚ :=
  let gains := if st.currentEq.length = 10 then st.currentEq
    else List.replicate 10 (JVal.num 0)
  (List.range 10).map (fun i =>
    match gains.getD i JVal.other with
    | JVal.num q => q
    | JVal.other => 0)

/-- A payload that only carries an eq array (SS_SETTINGS message). -/
def eqOnlyPayload (l : List JVal) : SSPayload :=
  { volumePercent := none, volume := none, muted := false, mode := none, eq := some l }

/-- C4 as stated is false at a concrete input. For
    `TabAudioController.setEqGains([30, 0, …, 0])` the stored and applied
    band-0 gain is 30, not the claimed 24 (no clamping to [-24,24] occurs
    there); and in the part_000 SS_SETTINGS handler a non-numeric band input
    is stored as -24 (the clamp minimum), not the claimed 0 dB. -/
theorem C4_counterexample :
    tabAppliedEq (tabSetEqGains initTabEngine
        (some (JVal.num 30 :: List.replicate 9 (JVal.num 0))))
      = 30 :: List.replicate 9 0
    ∧ (30 : ℚ) ≠ 24
    ∧ (handleSS initTapState (eqOnlyPayload (JVal.other :: List.replicate 9 (JVal.num 0)))).eq
      = (-24) :: List.replicate 9 0
    ∧ (-24 : ℚ) ≠ 0 := by
  refine ⟨by decide, by norm_num, by decide, by norm_num⟩

/-- C4 amended: the part_000 SS_SETTINGS handler clamps each incoming band
    value to [-24,24] independently and stores exactly 10 bands, with input
    30 clamped to 24 and a non-numeric band stored as -24 (the clamp
    minimum), not 0; `TabAudioController.setEqGains` instead stores the
    padded/truncated input without clamping (30 stays 30), and a non-numeric
    band is applied as 0 dB at filter-application time. Both setters are
    total functions: no input makes them fail. -/
theorem C4_amended_eq_clamping :
    (∀ st l x, x ∈ (handleSS st (eqOnlyPayload l)).eq → -24 ≤ x ∧ x ≤ 24)
    ∧ (∀ st l, ((handleSS st (eqOnlyPayload l)).eq).length = 10)
    ∧ (handleSS initTapState (eqOnlyPayload [JVal.num 30])).eq.headI = 24
    ∧ (handleSS initTapState (eqOnlyPayload [JVal.other])).eq.headI = -24
    ∧ (∀ st gains, (tabSetEqGains st (some gains)).currentEq = padTo10 gains)
    ∧ (tabAppliedEq (tabSetEqGains initTabEngine (some [JVal.num 30]))).headI = 30
    ∧ (tabAppliedEq (tabSetEqGains initTabEngine (some [JVal.other]))).headI = 0 := by
  refine ⟨?_, ?_, by decide, by decide, fun st gains => rfl, by decide, by decide⟩
  · intro st l x hx
    simp only [handleSS, eqOnlyPayload] at hx
    rcases List.mem_map.mp hx with ⟨v, _, hveq⟩
    rw [← hveq]
    exact clampNumber_mem (by norm_num)
  · intro st l
    simp only [handleSS, eqOnlyPayload]
    rw [List.length_map, padTo10_length]

/-- Witness for C4 amended: the clamping bound applied to the concrete band
    value stored for input [30]. -/
theorem C4_amended_eq_clamping_witness :
    -24 ≤ (24 : ℚ) ∧ (24 : ℚ) ≤ 24 :=
  C4_amended_eq_clamping.1 initTapState [JVal.num 30] 24 (by decide)

/-! ### Source binding — `MediaHook` (FireFox/1.2 popup.js) and
    `hookElementYouTube` / `makeSourceForElement` (src/unnamed/part_004) -/

/-- Which tap strategy produced a source node. -/
inductive TapKind where
  | direct
  | capture
deriving DecidableEq, Repr

/-- The host capabilities of one media element that the two tap strategies
    test: whether `createMediaElementSource(el)` succeeds, and whether
    `captureStream()` / `mozCaptureStream()` yields a stream that
    `createMediaStreamSource` accepts. -/
structure ElementCaps where
  mediaElementSourceOk : Bool
  captureOk : Bool
deriving DecidableEq, Repr

/-- `MediaHook._makeSource(el)` of FireFox/1.2 popup.js: attempt 1 is the
    direct `createMediaElementSource` tap, attempt 2 the capture-stream tap,
    `null` when both fail. -/
def mediaHookMakeSource (c : ElementCaps) : Option TapKind :=
  if c.mediaElementSourceOk then some TapKind.direct
  else if c.captureOk then some TapKind.capture
  else none

/-- `makeSourceForElement(el, ctx)` of src/unnamed/part_004: attempt 1 is the
    capture-stream tap, attempt 2 the direct `createMediaElementSource` tap,
    `null` when both fail. -/
def makeSourceForElement (c : ElementCaps) : Option TapKind :=
  if c.captureOk then some TapKind.capture
  else if c.mediaElementSourceOk then some TapKind.direct
  else none

/-- The binding-relevant state of a `MediaHook` instance. Elements are opaque
    handles (ℕ). `sources` is the WeakMap of bound elements, `pendingRetry`
    the WeakSet of one-shot retry registrations. -/
structure MHState where
  sources : List ℕ
  hookedCount : ℕ
  pendingRetry : List ℕ
deriving DecidableEq, Repr

def initMHState : MHState := { sources := [], hookedCount := 0, pendingRetry := [] }

/-- `MediaHook.hook(el)`: an element already in `sources` is returned as
    already hooked with no state change; otherwise the element is bound when
    the tap environment (`tap el`, abstracting `_makeSource` plus the
    `bus.ensure()` precondition) succeeds; on failure at most one pending
    retry registration is recorded. Returns the new state and the call's
    boolean result. -/
def mhHook (tap : ℕ → Bool) (st : MHState) (el : ℕ) : MHState × Bool :=
  if el ∈ st.sources then (st, true)
  else if tap el then
    ({ sources := el :: st.sources, hookedCount := st.hookedCount + 1,
       pendingRetry := st.pendingRetry }, true)
  else if el ∈ st.pendingRetry then (st, false)
  else ({ st with pendingRetry := el :: st.pendingRetry }, false)

/-- `hookElementYouTube(el)` of part_004 reduced to its binding discipline:
    the element set of `mediaMap` (the companion `dataset.soundsphereHooked`
    marker is set and cleared together with the map entry). -/
def ytHook (tap : ℕ → Bool) (m : List ℕ) (el : ℕ) : List ℕ :=
  if el ∈ m then m
  else if tap el then el :: m
  else m

/-- C5: discovery is idempotent. Hooking the same element a second time (by
    a scan, mutation callback or repeated call) never changes the state
    again; an element already bound is left untouched; presenting the same
    source-appeared event twice to an unbound element in a tappable
    environment yields exactly one bound chain; and the part_004 YouTube
    hook likewise ignores an element already in its media map. -/
theorem C5_discovery_idempotent :
    (∀ tap st el, mhHook tap (mhHook tap st el).1 el = mhHook tap st el)
    ∧ (∀ tap st el, el ∈ st.sources → mhHook tap st el = (st, true))
    ∧ (∀ tap st el, tap el = true → st.sources.count el = 0 →
        ((mhHook tap (mhHook tap st el).1 el).1.sources.count el = 1
          ∧ (mhHook tap (mhHook tap st el).1 el).1.hookedCount = st.hookedCount + 1))
    ∧ (∀ tap m el, el ∈ m → ytHook tap m el = m) := by
  have hmem : ∀ tap st el, el ∈ st.sources → mhHook tap st el = (st, true) := by
    intro tap st el h
    unfold mhHook
    rw [if_pos h]
  refine ⟨?_, hmem, ?_, ?_⟩
  · intro tap st el
    unfold mhHook
    by_cases h1 : el ∈ st.sources
    · rw [if_pos h1]
      simp only [if_pos h1]
    · rw [if_neg h1]
      by_cases h2 : tap el
      · simp only [if_pos h2, if_neg h1]
        have : el ∈ el :: st.sources := List.mem_cons_self el st.sources
        simp [this]
      · simp only [h2, Bool.false_eq_true, if_false]
        by_cases h3 : el ∈ st.pendingRetry
        · simp [h1, h3, h2]
        · simp only [if_neg h3]
          have h1b : el ∉ st.sources := h1
          have h3b : el ∈ el :: st.pendingRetry := List.mem_cons_self el st.pendingRetry
          simp [h1b, h2, h3b]
  · intro tap st el htap hcnt
    have h1 : el ∉ st.sources := by
      intro h
      rw [List.count_eq_zero] at hcnt
      exact hcnt h
    have hfirst : (mhHook tap st el).1
        = { sources := el :: st.sources, hookedCount := st.hookedCount + 1,
            pendingRetry := st.pendingRetry } := by
      unfold mhHook
      rw [if_neg h1, if_pos htap]
    have hmem2 : el ∈ (mhHook tap st el).1.sources := by
      rw [hfirst]
      exact List.mem_cons_self el st.sources
    rw [hmem tap (mhHook tap st el).1 el hmem2, hfirst]
    constructor
    · simp [List.count_cons, hcnt]
    · rfl
  · intro tap m el h
    unfold ytHook
    rw [if_pos h]

/-- Witness for C5: a bound element (handle 7) is not rebound, and hooking
    handle 3 twice from the empty state yields exactly one bound chain. -/
theorem C5_discovery_idempotent_witness :
    mhHook (fun _ => true)
        { sources := [7], hookedCount := 1, pendingRetry := [] } 7
      = ({ sources := [7], hookedCount := 1, pendingRetry := [] }, true)
    ∧ (mhHook (fun _ => true)
        (mhHook (fun _ => true) initMHState 3).1 3).1.sources.count 3 = 1 :=
  ⟨C5_discovery_idempotent.2.1 (fun _ => true)
      { sources := [7], hookedCount := 1, pendingRetry := [] } 7 (by decide),
   (C5_discovery_idempotent.2.2.1 (fun _ => true) initMHState 3 rfl (by decide)).1⟩

/-- C8 as stated is false: the two cited binders do not try the strategies in
    the same order. On an element where both strategies are available,
    `makeSourceForElement` (src/unnamed/part_004) returns the capture-based
    tap, not the direct in-place tap the claim requires to win first. -/
theorem C8_counterexample :
    makeSourceForElement { mediaElementSourceOk := true, captureOk := true }
      = some TapKind.capture
    ∧ some TapKind.capture ≠ some TapKind.direct
    ∧ mediaHookMakeSource { mediaElementSourceOk := true, captureOk := true }
      = some TapKind.direct := by
  refine ⟨rfl, by decide, rfl⟩

/-- C8 amended: `MediaHook._makeSource` (FireFox/1.2 popup.js) tries the
    direct in-place tap first and falls back to the capture-based tap only
    when the direct tap fails, first success winning, while
    `makeSourceForElement` (src/unnamed/part_004) tries the two strategies in
    the opposite order (capture first, direct second); in both, binding
    fails exactly when both strategies are unavailable, and a failed binding
    attempt leaves the hook state (bound sources and hooked count)
    unchanged. -/
theorem C8_amended_binding_order :
    (∀ c : ElementCaps, c.mediaElementSourceOk = true →
        mediaHookMakeSource c = some TapKind.direct)
    ∧ (∀ c : ElementCaps, c.mediaElementSourceOk = false → c.captureOk = true →
        mediaHookMakeSource c = some TapKind.capture)
    ∧ (∀ c : ElementCaps, c.captureOk = true →
        makeSourceForElement c = some TapKind.capture)
    ∧ (∀ c : ElementCaps, c.captureOk = false → c.mediaElementSourceOk = true →
        makeSourceForElement c = some TapKind.direct)
    ∧ (∀ c : ElementCaps, (mediaHookMakeSource c = none
        ↔ c.mediaElementSourceOk = false ∧ c.captureOk = false))
    ∧ (∀ c : ElementCaps, (makeSourceForElement c = none
        ↔ c.mediaElementSourceOk = false ∧ c.captureOk = false))
    ∧ (∀ tap st el, tap el = false → el ∉ st.sources →
        ((mhHook tap st el).1.sources = st.sources
          ∧ (mhHook tap st el).1.hookedCount = st.hookedCount
          ∧ (mhHook tap st el).2 = false)) := by
  refine ⟨?_, ?_, ?_, ?_, ?_, ?_, ?_⟩
  · intro c h
    unfold mediaHookMakeSource
    rw [if_pos h]
  · intro c h1 h2
    unfold mediaHookMakeSource
    rw [if_neg (by simp [h1]), if_pos h2]
  · intro c h
    unfold makeSourceForElement
    rw [if_pos h]
  · intro c h1 h2
    unfold makeSourceForElement
    rw [if_neg (by simp [h1]), if_pos h2]
  · intro c
    unfold mediaHookMakeSource
    rcases c with ⟨m, cap⟩
    cases m <;> cases cap <;> simp
  · intro c
    unfold makeSourceForElement
    rcases c with ⟨m, cap⟩
    cases m <;> cases cap <;> simp
  · intro tap st el htap hmem
    unfold mhHook
    rw [if_neg hmem]
    simp only [htap, Bool.false_eq_true, if_false]
    by_cases h3 : el ∈ st.pendingRetry
    · rw [if_pos h3]
      exact ⟨rfl, rfl, rfl⟩
    · rw [if_neg h3]
      exact ⟨rfl, rfl, rfl⟩

/-- Witness for C8 amended at concrete capabilities: direct wins for
    `MediaHook._makeSource` when both are available, and a failed attempt on
    element 5 leaves the empty hook state unbound. -/
theorem C8_amended_binding_order_witness :
    mediaHookMakeSource { mediaElementSourceOk := true, captureOk := true }
      = some TapKind.direct
    ∧ (mhHook (fun _ => false) initMHState 5).1.sources = initMHState.sources :=
  ⟨C8_amended_binding_order.1 { mediaElementSourceOk := true, captureOk := true } rfl,
   (C8_amended_binding_order.2.2.2.2.2.2 (fun _ => false) initMHState 5 rfl (by decide)).1⟩

/-! ### Master-bus single connection — the patched `AudioNode.prototype.connect`
    (src/unnamed/part_000 and the SPOTIFY_TAP variant in FireFox/1.2 popup.js) -/

/-- Per-context state of the connect patch: whether `getChainFor` has built
    the master chain, the chain's `connected` flag, how many times the
    native `output → ctx.destination` connection has been performed, and
    which source nodes were routed into the master input (in order). -/
structure BusState where
  hasChain : Bool
  connected : Bool
  destConnections : ℕ
  routedSources : List ℕ
deriving DecidableEq, Repr

def initBusState : BusState :=
  { hasChain := false, connected := false, destConnections := 0, routedSources := [] }

/-- One call of the patched `connect` by a non-bypass node `src` targeting
    `ctx.destination`: `getChainFor` builds the chain on first use (with
    `connected = false`); then, if the chain is not yet connected, the single
    `nativeConnect(chain.output, ctx.destination)` runs and `connected` is
    set — check and set happen in this one step, before the source is routed
    into `chain.input`. -/
def patchedConnectDest (st : BusState) (src : ℕ) : BusState :=
  let st1 := if st.hasChain then st else { st with hasChain := true, connected := false }
  let st2 := if st1.connected then st1
    else { st1 with destConnections := st1.destConnections + 1, connected := true }
  { st2 with routedSources := src :: st2.routedSources }

/-- A whole sequence of destination-targeting connect calls. -/
def runConnects (srcs : List ℕ) : BusState :=
  srcs.foldl patchedConnectDest initBusState

theorem patchedConnectDest_connected (st : BusState) (src : ℕ) :
    (patchedConnectDest st src).connected = true := by
  unfold patchedConnectDest
  by_cases h1 : st.hasChain <;> by_cases h2 : st.connected <;>
    simp [h1, h2]

theorem patchedConnectDest_hasChain (st : BusState) (src : ℕ) :
    (patchedConnectDest st src).hasChain = true := by
  unfold patchedConnectDest
  by_cases h1 : st.hasChain <;> by_cases h2 : st.connected <;>
    simp [h1, h2]

/-- Once the chain exists and is connected, a further connect call only
    routes the new source: no second destination connection happens. -/
theorem patchedConnectDest_stable (st : BusState) (src : ℕ)
    (hch : st.hasChain = true) (hco : st.connected = true) :
    patchedConnectDest st src
      = { st with routedSources := src :: st.routedSources } := by
  unfold patchedConnectDest
  simp [hch, hco]

theorem patchedConnectDest_routed (st : BusState) (src : ℕ) :
    (patchedConnectDest st src).routedSources.length
      = st.routedSources.length + 1 := by
  unfold patchedConnectDest
  by_cases h1 : st.hasChain <;> by_cases h2 : st.connected <;>
    simp [h1, h2]

theorem foldl_connected_invariant (srcs : List ℕ) (st : BusState)
    (hch : st.hasChain = true) (hco : st.connected = true) :
    (srcs.foldl patchedConnectDest st).destConnections = st.destConnections
    ∧ (srcs.foldl patchedConnectDest st).connected = true := by
  induction srcs generalizing st with
  | nil => exact ⟨rfl, hco⟩
  | cons a l ih =>
      rw [List.foldl_cons, patchedConnectDest_stable st a hch hco]
      exact ih _ hch hco

/-- C6: for any nonempty sequence of N sources routed through the patched
    connect into one context's master bus, the output-to-destination
    connection is performed exactly once, the per-context connected flag
    ends set, and all N sources are routed into the bus; moreover after any
    sequence at all the connection count never exceeds one, and whenever at
    least one source has been routed, the bus was already connected
    (connection happens before or with the first routing, never after). -/
theorem C6_master_bus_single_connection (srcs : List ℕ) :
    (srcs ≠ [] →
      (runConnects srcs).destConnections = 1
      ∧ (runConnects srcs).connected = true
      ∧ (runConnects srcs).routedSources.length = srcs.length)
    ∧ (runConnects srcs).destConnections ≤ 1
    ∧ ((runConnects srcs).routedSources ≠ [] → (runConnects srcs).connected = true) := by
  have hlen : ∀ (l : List ℕ) (st : BusState),
      (l.foldl patchedConnectDest st).routedSources.length
        = st.routedSources.length + l.length := by
    intro l
    induction l with
    | nil => intro st; simp
    | cons a t ih =>
        intro st
        rw [List.foldl_cons, ih, patchedConnectDest_routed, List.length_cons]
        omega
  cases srcs with
  | nil =>
      refine ⟨fun h => absurd rfl h, ?_, fun h => absurd rfl h⟩
      show initBusState.destConnections ≤ 1
      decide
  | cons a t =>
      have hstep : patchedConnectDest initBusState a
          = { hasChain := true, connected := true, destConnections := 1,
              routedSources := [a] } := rfl
      have h1 : (runConnects (a :: t)).destConnections = 1
          ∧ (runConnects (a :: t)).connected = true := by
        unfold runConnects
        rw [List.foldl_cons, hstep]
        exact foldl_connected_invariant t _ rfl rfl
      refine ⟨fun _ => ⟨h1.1, h1.2, ?_⟩, le_of_eq h1.1, fun _ => h1.2⟩
      unfold runConnects
      rw [hlen]
      simp [initBusState]

/-- Witness for C6: three sources routed into one context connect the bus
    output to the destination exactly once. -/
theorem C6_master_bus_single_connection_witness :
    [10, 20, 30] ≠ ([] : List ℕ)
    ∧ (runConnects [10, 20, 30]).destConnections = 1 :=
  ⟨by decide, ((C6_master_bus_single_connection [10, 20, 30]).1 (by decide)).1⟩

/-! ### Capability guard — `DRM_GUARD` and `getState`'s `canBoost`
    (FireFox/1.2 popup.js) -/

/-- The page-level context state read by
    `SoundSpherePageController.getState`: the DRM_GUARD flags plus the
    backend indicators (`bus._wired`, `hook.hookedCount`,
    `WEB_AUDIO_TAP.ready`, `SPOTIFY_TAP` context count). -/
structure PageAudioState where
  drmInUse : Bool
  drmEncrypted : Bool
  drmMediaKeys : Bool
  busWired : Bool
  hookedCount : ℕ
  tapReady : Bool
  spotifyTapContexts : ℕ
deriving DecidableEq, Repr

def initPageAudioState : PageAudioState :=
  { drmInUse := false, drmEncrypted := false, drmMediaKeys := false,
    busWired := false, hookedCount := 0, tapReady := false, spotifyTapContexts := 0 }

/-- The discrete events that mutate this state: `DRM_GUARD.mark` for an
    encrypted event or an observed mediaKeys association (both set `inUse`
    and never clear it), a successful element tap (`MediaHook.hook`
    incrementing `hookedCount` with the bus wired), the generic page tap
    announcing readiness, and `SPOTIFY_TAP` building a chain for a new
    AudioContext. -/
inductive PageEvent where
  | encryptedSignal
  | mediaKeysSignal
  | tapSuccess
  | tapReadySignal
  | spotifyTapContext
deriving DecidableEq, Repr

def stepEvent (st : PageAudioState) (e : PageEvent) : PageAudioState :=
  match e with
  | .encryptedSignal => { st with drmEncrypted := true, drmInUse := true }
  | .mediaKeysSignal => { st with drmMediaKeys := true, drmInUse := true }
  | .tapSuccess => { st with busWired := true, hookedCount := st.hookedCount + 1 }
  | .tapReadySignal => { st with tapReady := true }
  | .spotifyTapContext => { st with spotifyTapContexts := st.spotifyTapContexts + 1 }

def runEvents (st : PageAudioState) (evs : List PageEvent) : PageAudioState :=
  evs.foldl stepEvent st

/-- `canBoost` as computed by `SoundSpherePageController.getState`:
    `!blockedEffects && (usingWebAudio || usingTap)` where `blockedEffects`
    is `IS_SPOTIFY && DRM_GUARD.state.inUse`, `usingWebAudio` is
    `bus._wired && hookedCount > 0` and `usingTap` is
    `WEB_AUDIO_TAP.ready || (IS_SPOTIFY && spotifyExperimental &&
    SPOTIFY_TAP.engaged())`. -/
def canBoost (isSpotify spotifyExperimental : Bool) (st : PageAudioState) : Bool :=
  let usingWebAudio := st.busWired && decide (0 < st.hookedCount)
  let usingSpotifyTap := isSpotify && spotifyExperimental
    && decide (0 < st.spotifyTapContexts)
  let usingTap := st.tapReady || usingSpotifyTap
  !(isSpotify && st.drmInUse) && (usingWebAudio || usingTap)

theorem stepEvent_drm_sticky (st : PageAudioState) (e : PageEvent)
    (h : st.drmInUse = true) : (stepEvent st e).drmInUse = true := by
  cases e <;> simp [stepEvent, h]

/-- C7: capability is sticky. From any state in which the DRM guard marked
    the context (drmInUse, the Restricted side of `blockedEffects`), every
    further event sequence — including successful taps of new sources, tap
    readiness and new SPOTIFY_TAP contexts — leaves drmInUse set, and
    `getState`'s `canBoost` stays false for the Spotify context regardless
    of the experimental flag: the context never reverts to Capable. -/
theorem C7_capability_sticky (st : PageAudioState) (evs : List PageEvent)
    (h : st.drmInUse = true) :
    (runEvents st evs).drmInUse = true
    ∧ (∀ spotifyExperimental : Bool,
        canBoost true spotifyExperimental (runEvents st evs) = false) := by
  have hst : (runEvents st evs).drmInUse = true := by
    unfold runEvents
    induction evs generalizing st with
    | nil => exact h
    | cons e l ih =>
        rw [List.foldl_cons]
        exact ih (stepEvent st e) (stepEvent_drm_sticky st e h)
  refine ⟨hst, fun spotifyExperimental => ?_⟩
  unfold canBoost
  rw [hst]
  simp

/-- Witness for C7: after an encrypted signal, a successful tap of a new
    source plus tap readiness do not restore the capability. -/
theorem C7_capability_sticky_witness :
    (runEvents (stepEvent initPageAudioState PageEvent.encryptedSignal)
        [PageEvent.tapSuccess, PageEvent.tapReadySignal,
         PageEvent.spotifyTapContext]).drmInUse = true
    ∧ canBoost true true
        (runEvents (stepEvent initPageAudioState PageEvent.encryptedSignal)
          [PageEvent.tapSuccess, PageEvent.tapReadySignal,
           PageEvent.spotifyTapContext]) = false :=
  ⟨(C7_capability_sticky (stepEvent initPageAudioState PageEvent.encryptedSignal)
      [PageEvent.tapSuccess, PageEvent.tapReadySignal, PageEvent.spotifyTapContext]
      rfl).1,
   (C7_capability_sticky (stepEvent initPageAudioState PageEvent.encryptedSignal)
      [PageEvent.tapSuccess, PageEvent.tapReadySignal, PageEvent.spotifyTapContext]
      rfl).2 true⟩

/-! ### `SoundSpherePageController` (FireFox/1.2 popup.js):
    start / setters / getState and its message handler. -/

/-- The controller fields involved in the settings and getState paths
    (non-Spotify default path: `_installMediaHooks` is the branch taken). -/
structure Controller where
  started : Bool
  observerInstalled : Bool
  busWired : Bool
  hookedCount : ℕ
  volumePercent : ℚ
  muted : Bool
  mode : String
  eqDb : List ℚ
deriving DecidableEq, Repr

def initController : Controller :=
  { started := false, observerInstalled := false, busWired := false,
    hookedCount := 0, volumePercent := 100, muted := false, mode := "default",
    eqDb := List.replicate 10 0 }

/-- `start()`: a no-op when already started; otherwise sets `_started`,
    installs the mutation observer and runs the initial scan, which hooks
    the `env` currently-present tappable media elements (wiring the bus when
    at least one is hooked), then applies the settings. -/
def ctrlStart (env : ℕ) (c : Controller) : Controller :=
  if c.started then c
  else
    { c with
      started := true
      observerInstalled := true
      busWired := c.busWired || decide (0 < env)
      hookedCount := c.hookedCount + env }

/-- `setVolumePercent(pct)`: clamp to [0,800], store, start, apply. -/
def ctrlSetVolumePercent (env : ℕ) (c : Controller) (pct : ℚ) : Controller :=
  ctrlStart env { c with volumePercent := max 0 (min 800 pct) }

/-- `setMuted(m)`: coerce to boolean, store, start, apply. -/
def ctrlSetMuted (env : ℕ) (c : Controller) (m : Bool) : Controller :=
  ctrlStart env { c with muted := m }

/-- `setMode(mode)`: validate against the 3-value enum, store, start, apply. -/
def ctrlSetMode (env : ℕ) (c : Controller) (m : String) : Controller :=
  ctrlStart env { c with mode := if m = "voice" ∨ m = "bass" then m else "default" }

/-- `setEqDb(arr)`: slice/pad to 10, clamp each to [-24,24], store, start,
    apply. `none` models a non-array argument. -/
def ctrlSetEqDb (env : ℕ) (c : Controller) (arr : Option (List JVal)) : Controller :=
  ctrlStart env
    { c with eqDb := (padTo10 (arr.getD [])).map (fun v => clampNumber v (-24) 24) }

/-- The state snapshot `getState()` returns (fields the claims concern:
    settings, capability, hooked count; non-Spotify context, so
    `blockedEffects` is false and `canBoost` is `usingWebAudio`). -/
structure StateView where
  volume : ℚ
  muted : Bool
  mode : String
  eq : List ℚ
  canBoost : Bool
  hooked : ℕ
deriving DecidableEq, Repr

/-- `getState()` itself: a pure read of the controller fields. -/
def ctrlGetState (c : Controller) : StateView :=
  { volume := c.volumePercent, muted := c.muted, mode := c.mode, eq := c.eqDb,
    canBoost := c.busWired && decide (0 < c.hookedCount), hooked := c.hookedCount }

/-- The `onMessage` handler for `{action: "getState"}`: it first calls
    `controller.start()` and only then answers with `controller.getState()`.
    Returns the controller state after the call and the response sent. -/
def handleGetStateMsg (env : ℕ) (c : Controller) : Controller × StateView :=
  (ctrlStart env c, ctrlGetState (ctrlStart env c))

/-- One external setter call on the controller. -/
inductive CtrlOp where
  | setVolume (v : ℚ)
  | setMuted (m : Bool)
  | setMode (m : String)
  | setEq (a : Option (List JVal))

def ctrlStep (env : ℕ) (c : Controller) (op : CtrlOp) : Controller :=
  match op with
  | .setVolume v => ctrlSetVolumePercent env c v
  | .setMuted m => ctrlSetMuted env c m
  | .setMode m => ctrlSetMode env c m
  | .setEq a => ctrlSetEqDb env c a

def runCtrl (env : ℕ) (c : Controller) (ops : List CtrlOp) : Controller :=
  ops.foldl (ctrlStep env) c

theorem ctrlStart_eqDb (env : ℕ) (c : Controller) :
    (ctrlStart env c).eqDb = c.eqDb := by
  unfold ctrlStart
  by_cases h : c.started <;> simp [h]

theorem ctrlStart_started (env : ℕ) (c : Controller) :
    (ctrlStart env c).started = true := by
  unfold ctrlStart
  by_cases h : c.started <;> simp [h]

theorem ctrlStart_of_started (env : ℕ) (c : Controller) (h : c.started = true) :
    ctrlStart env c = c := by
  unfold ctrlStart
  rw [if_pos h]

theorem ctrlStep_eqDb_len (env : ℕ) (c : Controller) (op : CtrlOp)
    (h : c.eqDb.length = 10) : (ctrlStep env c op).eqDb.length = 10 := by
  cases op with
  | setVolume v => rw [ctrlStep, ctrlSetVolumePercent, ctrlStart_eqDb]; exact h
  | setMuted m => rw [ctrlStep, ctrlSetMuted, ctrlStart_eqDb]; exact h
  | setMode m => rw [ctrlStep, ctrlSetMode, ctrlStart_eqDb]; exact h
  | setEq a =>
      rw [ctrlStep, ctrlSetEqDb, ctrlStart_eqDb]
      rw [List.length_map, padTo10_length]

theorem handleSS_eq_len (st : TapState) (p : SSPayload)
    (h : st.eq.length = 10) : (handleSS st p).eq.length = 10 := by
  unfold handleSS
  cases p.eq with
  | none => exact h
  | some l =>
      simp only []
      rw [List.length_map, padTo10_length]

/-- C9: the stored EQ vector always has exactly 10 elements. Starting from
    the initial state, any sequence of controller setter calls leaves
    `eqDb` with exactly 10 entries; likewise any sequence of SS_SETTINGS
    payloads leaves the part_000 `state.eq` with exactly 10 entries; and
    `TabAudioController.setEqGains` always stores exactly 10 entries. -/
theorem C9_eq_always_ten :
    (∀ (env : ℕ) (ops : List CtrlOp),
      (runCtrl env initController ops).eqDb.length = 10)
    ∧ (∀ ps : List SSPayload, (ps.foldl handleSS initTapState).eq.length = 10)
    ∧ (∀ (st : TabEngineState) (gains : Option (List JVal)),
      (tabSetEqGains st gains).currentEq.length = 10) := by
  refine ⟨?_, ?_, ?_⟩
  · intro env ops
    have hgen : ∀ (l : List CtrlOp) (c : Controller), c.eqDb.length = 10 →
        (l.foldl (ctrlStep env) c).eqDb.length = 10 := by
      intro l
      induction l with
      | nil => intro c h; exact h
      | cons op t ih =>
          intro c h
          rw [List.foldl_cons]
          exact ih _ (ctrlStep_eqDb_len env c op h)
    exact hgen ops initController (by simp [initController])
  · intro ps
    have hgen : ∀ (l : List SSPayload) (st : TapState), st.eq.length = 10 →
        (l.foldl handleSS st).eq.length = 10 := by
      intro l
      induction l with
      | nil => intro st h; exact h
      | cons p t ih =>
          intro st h
          rw [List.foldl_cons]
          exact ih _ (handleSS_eq_len st p h)
    exact hgen ps initTapState (by simp [initTapState])
  · intro st gains
    rw [tabSetEqGains]
    exact padTo10_length _

/-- Witness for C9 at a concrete operation sequence mixing an oversized,
    an undersized and a non-array EQ update. -/
theorem C9_eq_always_ten_witness :
    (runCtrl 1 initController
        [CtrlOp.setEq (some (List.replicate 12 (JVal.num 3))),
         CtrlOp.setVolume 400,
         CtrlOp.setEq (some [JVal.num 1, JVal.other]),
         CtrlOp.setEq none]).eqDb.length = 10
    ∧ ([eqOnlyPayload [], mutedOnlyPayload true].foldl handleSS initTapState).eq.length
        = 10 :=
  ⟨C9_eq_always_ten.1 1
      [CtrlOp.setEq (some (List.replicate 12 (JVal.num 3))),
       CtrlOp.setVolume 400,
       CtrlOp.setEq (some [JVal.num 1, JVal.other]),
       CtrlOp.setEq none],
   C9_eq_always_ten.2.1 [eqOnlyPayload [], mutedOnlyPayload true]⟩

/-- C10 as stated is false: the getState message path is not side-effect
    free. On a freshly created controller the handler first runs
    `controller.start()`, which installs the mutation observer (and the
    media hooks); the controller state after the first getState message
    differs from the state before it. -/
theorem C10_counterexample :
    (handleGetStateMsg 1 initController).1 ≠ initController
    ∧ (handleGetStateMsg 1 initController).1.observerInstalled = true
    ∧ initController.observerInstalled = false := by
  refine ⟨?_, rfl, rfl⟩
  intro h
  have := congrArg Controller.observerInstalled h
  simp [handleGetStateMsg, ctrlStart, initController] at this

/-- C10 amended: `getState()` itself is a pure read, but the message
    handler calls `start()` before reading. Once the controller is started,
    a getState message leaves the state entirely unchanged and returns the
    pure read of the current fields; and in general the handler is
    idempotent — a second consecutive getState message changes nothing
    further and returns the same snapshot as the first. -/
theorem C10_amended_getState_frame (env : ℕ) (c : Controller) :
    (c.started = true → handleGetStateMsg env c = (c, ctrlGetState c))
    ∧ (handleGetStateMsg env (handleGetStateMsg env c).1).1
        = (handleGetStateMsg env c).1
    ∧ (handleGetStateMsg env (handleGetStateMsg env c).1).2
        = (handleGetStateMsg env c).2 := by
  have hidem : ctrlStart env (ctrlStart env c) = ctrlStart env c :=
    ctrlStart_of_started env _ (ctrlStart_started env c)
  refine ⟨?_, ?_, ?_⟩
  · intro h
    unfold handleGetStateMsg
    rw [ctrlStart_of_started env c h]
  · show ctrlStart env (ctrlStart env c) = ctrlStart env c
    exact hidem
  · show ctrlGetState (ctrlStart env (ctrlStart env c)) = ctrlGetState (ctrlStart env c)
    rw [hidem]

/-- Witness for C10 amended: on an already-started controller the getState
    message is a pure read. -/
theorem C10_amended_getState_frame_witness :
    handleGetStateMsg 1 (ctrlStart 1 initController)
      = (ctrlStart 1 initController, ctrlGetState (ctrlStart 1 initController)) :=
  (C10_amended_getState_frame 1 (ctrlStart 1 initController)).1
    (ctrlStart_started 1 initController)
